import Mathlib

/-!
Shallow embedding of the Dev3 consensus & autonomous-decision engine.

The definitions below are translated from the repository's TypeScript
source: the consensus calculator (`calculateConsensus` in
`server/routes.ts` / `server/ai-deliberation.ts`), the autonomous quorum
rule and cycle (`determineConsensusAction`, `runAutonomousCycle` in the
autonomous-engine module), the vote-storage replacement logic
(`MemStorage.addAIResponse`), and the two confidence-parsing paths
(`parseAIResponse` and `getAIRecommendation`).
-/

namespace Dev3

/-- The three fixed AI voters (`AI_MODELS = ["grok", "chatgpt", "claude"]`). -/
inductive AIModel where
  | grok
  | chatgpt
  | claude
deriving DecidableEq, Repr, Fintype

/-- A manual-deliberation vote choice (`"approve" | "reject" | "abstain"`). -/
inductive VoteChoice where
  | approve
  | reject
  | abstain
deriving DecidableEq, Repr, Fintype

/-- Role display names from `AI_MODEL_ROLES[model].name`. -/
def roleName : AIModel → String
  | .grok => "Grok"
  | .chatgpt => "ChatGPT"
  | .claude => "Claude"

/-- One voter's structured response (`AIDeliberationResult` in routes.ts). -/
structure AIDeliberationResult where
  model : AIModel
  vote : VoteChoice
  reasoning : String
  confidence : Int
  risks : List String
  recommendations : List String
deriving DecidableEq, Repr

/-- Consensus outcome (`"approved" | "rejected" | "needs_revision"`). -/
inductive Outcome where
  | approved
  | rejected
  | needs_revision
deriving DecidableEq, Repr

/-- The `{approve, reject, abstain}` vote-count summary. -/
structure VoteSummary where
  approve : Nat
  reject : Nat
  abstain : Nat
deriving DecidableEq, Repr

/-- Result record of `calculateConsensus`. -/
structure ConsensusResult where
  outcome : Outcome
  unanimity : Bool
  voteSummary : VoteSummary
  synthesizedReasoning : String
  actionItems : List String
deriving DecidableEq, Repr

/-- `Array.from(new Set(xs))`: deduplicate keeping first occurrences. -/
def dedupFirst (xs : List String) : List String :=
  xs.foldl (fun acc x => if x ∈ acc then acc else acc ++ [x]) []

/-- `calculateConsensus` from the deliberation module: tally the three
votes, decide `approved` / `rejected` / `needs_revision` in that order,
set unanimity, synthesize reasoning, and union recommendations. -/
def calculateConsensus (responses : List AIDeliberationResult) : ConsensusResult :=
  let voteSummary : VoteSummary :=
    { approve := (responses.filter (fun r => decide (r.vote = VoteChoice.approve))).length
      reject := (responses.filter (fun r => decide (r.vote = VoteChoice.reject))).length
      abstain := (responses.filter (fun r => decide (r.vote = VoteChoice.abstain))).length }
  let outcome : Outcome :=
    if voteSummary.approve ≥ 2 then Outcome.approved
    else if voteSummary.reject ≥ 2 then Outcome.rejected
    else Outcome.needs_revision
  let unanimity : Bool := voteSummary.approve == 3 || voteSummary.reject == 3
  let synthesizedReasoning : String :=
    String.intercalate "\n\n"
      (responses.map (fun r =>
        roleName r.model ++ " (" ++ reprStr r.vote ++ ", " ++ toString r.confidence
          ++ "% confidence): " ++ r.reasoning))
  let actionItems : List String := dedupFirst (responses.flatMap (fun r => r.recommendations))
  { outcome, unanimity, voteSummary, synthesizedReasoning, actionItems }

end Dev3

namespace Dev3

/-- C1 helper: the vote list of a response triple. -/
def votesOf (r1 r2 r3 : AIDeliberationResult) : List VoteChoice :=
  [r1.vote, r2.vote, r3.vote]

end Dev3

namespace Dev3

/-- The autonomous action set
(`"buyback" | "burn" | "hold" | "sell_partial" | "claim_rewards"`). -/
inductive ActionType where
  | buyback
  | burn
  | hold
  | sellPartial
  | claim_rewards
deriving DecidableEq, Repr, Fintype

/-- Uppercased model name as in `r.model.toUpperCase()`. -/
def modelUpper : AIModel → String
  | .grok => "GROK"
  | .chatgpt => "CHATGPT"
  | .claude => "CLAUDE"

/-- Action label as it appears in the source strings. -/
def actionLabel : ActionType → String
  | .buyback => "buyback"
  | .burn => "burn"
  | .hold => "hold"
  | .sellPartial => "sell_partial"
  | .claim_rewards => "claim_rewards"

/-- One voter's action recommendation (`AIActionRecommendation`). -/
structure AIActionRecommendation where
  model : AIModel
  action : ActionType
  reasoning : String
  confidence : Int
  amount : Option Int
deriving DecidableEq, Repr

/-- The iteration order of `Object.entries(actionCounts)`: the insertion
order of the `actionCounts` record literal in `determineConsensusAction`. -/
def actionOrder : List ActionType :=
  [ActionType.buyback, ActionType.burn, ActionType.hold,
   ActionType.sellPartial, ActionType.claim_rewards]

/-- `actionCounts[a]` after the first loop of `determineConsensusAction`:
the number of recommendations for action `a` with confidence > 30. -/
def actionCount (recs : List AIActionRecommendation) (a : ActionType) : Nat :=
  (recs.filter (fun r => decide (r.confidence > 30) && decide (r.action = a))).length

/-- The second loop of `determineConsensusAction`: scan the tally in
`actionOrder`, keeping the first action whose count strictly exceeds the
running maximum (initial state `("hold", 0)`). -/
def pluralityFold (counts : ActionType → Nat) : ActionType × Nat :=
  actionOrder.foldl (fun st a => if counts a > st.2 then (a, counts a) else st)
    (ActionType.hold, 0)

/-- The plurality leader and its vote count for a recommendation list. -/
def pluralityWinner (recs : List AIActionRecommendation) : ActionType × Nat :=
  pluralityFold (actionCount recs)

/-- The record returned by `determineConsensusAction`. -/
structure ConsensusActionResult where
  action : ActionType
  reasoning : String
  votes : VoteSummary
deriving DecidableEq, Repr

/-- `determineConsensusAction`: plurality over confidence->30 votes with the
`maxVotes < 2` floor forcing `hold`, plus the display vote breakdown using
the confidence > 50 threshold against the chosen action. -/
def determineConsensusAction (recs : List AIActionRecommendation) : ConsensusActionResult :=
  let p := pluralityWinner recs
  let consensusAction : ActionType := if p.2 < 2 then ActionType.hold else p.1
  let reasoning : String :=
    String.intercalate "\n\n"
      (recs.map (fun r =>
        modelUpper r.model ++ ": " ++ actionLabel r.action ++ " ("
          ++ toString r.confidence ++ "%) - " ++ r.reasoning))
  { action := consensusAction
    reasoning
    votes :=
      { approve := (recs.filter (fun r =>
          decide (r.action = consensusAction) && decide (r.confidence > 50))).length
        reject := (recs.filter (fun r =>
          decide (r.action ≠ consensusAction) && decide (r.confidence > 50))).length
        abstain := (recs.filter (fun r => decide (r.confidence ≤ 50))).length } }

/-- An `AutonomousDecision` record (identity and timestamp omitted: they are
wall-clock values with no algorithmic content). -/
structure AutonomousDecision where
  action : ActionType
  reasoning : String
  votes : VoteSummary
  executed : Bool
  result : Option String
deriving DecidableEq, Repr

/-- `runAutonomousCycle` after context gathering: the joined result of the
three voter invocations either fails as a whole (`Except.error`, the strict
policy of `Promise.all`) or yields the three recommendations.
`execResult` stands for the external `executeAction` collaborator; `prev`
is the `lastDecisions` history. Returns the new decision and the updated
history (unshift, then truncate past 100 entries). -/
def runAutonomousCycle (recsOrErr : Except String (AIActionRecommendation ×
      AIActionRecommendation × AIActionRecommendation))
    (execResult : ActionType → String)
    (prev : List AutonomousDecision) :
    AutonomousDecision × List AutonomousDecision :=
  match recsOrErr with
  | Except.error errorMsg =>
    let failedDecision : AutonomousDecision :=
      { action := ActionType.hold
        reasoning := "Cycle aborted: AI deliberation failed - " ++ errorMsg
        votes := { approve := 0, reject := 0, abstain := 3 }
        executed := false
        result := some ("ERROR: " ++ errorMsg) }
    (failedDecision, (failedDecision :: prev).take 100)
  | Except.ok (r1, r2, r3) =>
    let consensus := determineConsensusAction [r1, r2, r3]
    let gate : Bool :=
      decide (consensus.action ≠ ActionType.hold) && decide (consensus.votes.approve ≥ 2)
    let result : String :=
      if gate then execResult consensus.action else "Action not executed - HOLD consensus"
    let decision : AutonomousDecision :=
      { action := consensus.action
        reasoning := consensus.reasoning
        votes := consensus.votes
        executed := gate
        result := some result }
    (decision, (decision :: prev).take 100)

/-- A stored vote (`AIResponse` in the schema): only the fields the storage
logic inspects are algorithmically relevant; the rest travels opaquely. -/
structure AIResponse where
  model : AIModel
  vote : VoteChoice
  reasoning : String
  confidence : Int
deriving DecidableEq, Repr

/-- `MemStorage.addAIResponse` on one decision's response list: find the
index of an existing response from the same model; replace it in place if
present, otherwise push the new response at the end. -/
def addAIResponse (responses : List AIResponse) (response : AIResponse) : List AIResponse :=
  match responses.findIdx? (fun r => decide (r.model = response.model)) with
  | some i => responses.set i response
  | none => responses ++ [response]

/-- The parsed JSON fields of a manual-deliberation reply that the
confidence/vote logic reads (`none` = field missing or non-numeric, so that
`parseInt` yields `NaN`). -/
structure ParsedVotePayload where
  vote : Option String
  confidence : Option Int
deriving DecidableEq, Repr

/-- `parseAIResponse`'s vote and confidence fields:
`["approve","reject","abstain"].includes(v) ? v : "abstain"` and
`Math.min(100, Math.max(0, parseInt(parsed.confidence) || 50))`
(`parseInt(...) || 50` replaces `NaN` and `0` by the default 50). -/
def parseAIResponse (p : ParsedVotePayload) : VoteChoice × Int :=
  let vote : VoteChoice :=
    match p.vote with
    | some "approve" => VoteChoice.approve
    | some "reject" => VoteChoice.reject
    | some "abstain" => VoteChoice.abstain
    | _ => VoteChoice.abstain
  let confidence : Int :=
    min 100 (max 0 (match p.confidence with
      | none => 50
      | some v => if v = 0 then 50 else v))
  (vote, confidence)

/-- The confidence assembled by the autonomous path `getAIRecommendation`:
`parsed.confidence || 50` — a falsy value (missing field or 0) becomes 50,
any other numeric value is taken as-is, with no clamping. -/
def getAIRecommendationConfidence (c : Option Int) : Int :=
  match c with
  | none => 50
  | some v => if v = 0 then 50 else v

end Dev3

/-- C1: for every input of exactly three votes, `calculateConsensus` yields
`approved` if the approve-count is at least 2, otherwise `rejected` if the
reject-count is at least 2, otherwise `needs_revision`. -/
theorem C1_outcome_rule (r1 r2 r3 : Dev3.AIDeliberationResult) :
    (Dev3.calculateConsensus [r1, r2, r3]).outcome =
      (if 2 ≤ (Dev3.votesOf r1 r2 r3).count Dev3.VoteChoice.approve then Dev3.Outcome.approved
       else if 2 ≤ (Dev3.votesOf r1 r2 r3).count Dev3.VoteChoice.reject then Dev3.Outcome.rejected
       else Dev3.Outcome.needs_revision) := by
  obtain ⟨m1, v1, s1, c1, k1, p1⟩ := r1
  obtain ⟨m2, v2, s2, c2, k2, p2⟩ := r2
  obtain ⟨m3, v3, s3, c3, k3, p3⟩ := r3
  cases v1 <;> cases v2 <;> cases v3 <;>
    simp [Dev3.calculateConsensus, Dev3.votesOf, List.count, List.countP, List.filter] <;>
    rfl

/-- C2: for every input of exactly three votes, the unanimity flag is true
iff all three votes are `approve` or all three are `reject`, equivalently
iff the approve-count is 3 or the reject-count is 3; a 2-1 split is not
unanimous. -/
theorem C2_unanimity (r1 r2 r3 : Dev3.AIDeliberationResult) :
    ((Dev3.calculateConsensus [r1, r2, r3]).unanimity = true ↔
      ((r1.vote = Dev3.VoteChoice.approve ∧ r2.vote = Dev3.VoteChoice.approve ∧
          r3.vote = Dev3.VoteChoice.approve) ∨
       (r1.vote = Dev3.VoteChoice.reject ∧ r2.vote = Dev3.VoteChoice.reject ∧
          r3.vote = Dev3.VoteChoice.reject))) ∧
    ((Dev3.calculateConsensus [r1, r2, r3]).unanimity = true ↔
      ((Dev3.votesOf r1 r2 r3).count Dev3.VoteChoice.approve = 3 ∨
       (Dev3.votesOf r1 r2 r3).count Dev3.VoteChoice.reject = 3)) := by
  obtain ⟨m1, v1, s1, c1, k1, p1⟩ := r1
  obtain ⟨m2, v2, s2, c2, k2, p2⟩ := r2
  obtain ⟨m3, v3, s3, c3, k3, p3⟩ := r3
  cases v1 <;> cases v2 <;> cases v3 <;>
    simp [Dev3.calculateConsensus, Dev3.votesOf, List.count, List.countP, List.filter] <;>
    decide

/-- C3 counterexample: the all-abstain triple yields `needs_revision` with
vote split 0/0/3, which is neither the 1/1/1 split nor a split with exactly
two abstains — refuting the claim that those are the only splits producing
`needs_revision`. -/
theorem C3_counterexample :
    let ab : Dev3.AIDeliberationResult :=
      { model := Dev3.AIModel.grok, vote := Dev3.VoteChoice.abstain,
        reasoning := "", confidence := 50, risks := [], recommendations := [] }
    let c := Dev3.calculateConsensus [ab, ab, ab]
    c.outcome = Dev3.Outcome.needs_revision ∧
    c.voteSummary = { approve := 0, reject := 0, abstain := 3 } ∧
    ¬(c.voteSummary.approve = 1 ∧ c.voteSummary.reject = 1 ∧ c.voteSummary.abstain = 1) ∧
    c.voteSummary.abstain ≠ 2 := by
  refine ⟨rfl, rfl, by decide, by decide⟩

/-- C3 (amended): for every input of exactly three votes, the outcome is
`needs_revision` exactly when neither approve nor reject reaches 2 — that
is, when the (approve, reject, abstain) split is 1/1/1, or two voters
abstain and the remaining vote is a single approve or reject, or all three
voters abstain. -/
theorem C3_needs_revision_splits (r1 r2 r3 : Dev3.AIDeliberationResult) :
    (Dev3.calculateConsensus [r1, r2, r3]).outcome = Dev3.Outcome.needs_revision ↔
      (let s := (Dev3.calculateConsensus [r1, r2, r3]).voteSummary
       (s.approve = 1 ∧ s.reject = 1 ∧ s.abstain = 1) ∨
       (s.abstain = 2 ∧ (s.approve = 1 ∨ s.reject = 1)) ∨
       (s.approve = 0 ∧ s.reject = 0 ∧ s.abstain = 3)) := by
  obtain ⟨m1, v1, s1, c1, k1, p1⟩ := r1
  obtain ⟨m2, v2, s2, c2, k2, p2⟩ := r2
  obtain ⟨m3, v3, s3, c3, k3, p3⟩ := r3
  cases v1 <;> cases v2 <;> cases v3 <;>
    simp [Dev3.calculateConsensus, List.filter]

namespace Dev3

/-- A recommendation with confidence ≤ 30 contributes to no action count. -/
theorem actionCount_cons_low (r : AIActionRecommendation)
    (recs : List AIActionRecommendation) (a : ActionType)
    (h : r.confidence ≤ 30) :
    actionCount (r :: recs) a = actionCount recs a := by
  simp [actionCount, List.filter_cons, not_lt.mpr h]

/-- A recommendation with confidence > 30 contributes one to the count of
its own action and nothing to the others. -/
theorem actionCount_cons_qual (r : AIActionRecommendation)
    (recs : List AIActionRecommendation) (a : ActionType)
    (h : r.confidence > 30) :
    actionCount (r :: recs) a =
      (if r.action = a then 1 else 0) + actionCount recs a := by
  by_cases ha : r.action = a <;>
    simp [actionCount, List.filter_cons, h, ha]
  omega

theorem actionCount_nil (a : ActionType) : actionCount [] a = 0 := rfl

/-- For three pairwise-distinct actions each counted once, the plurality
fold selects the first action of `actionOrder` that occurs among them. -/
theorem pluralityFold_three_distinct :
    ∀ a1 a2 a3 : ActionType, a1 ≠ a2 → a1 ≠ a3 → a2 ≠ a3 →
      some (pluralityFold (fun a =>
        (if a1 = a then 1 else 0) +
          ((if a2 = a then 1 else 0) + ((if a3 = a then 1 else 0) + 0)))).1 =
        actionOrder.find? (fun a =>
          decide (a = a1) || decide (a = a2) || decide (a = a3)) := by
  decide

end Dev3

/-- C4: in `determineConsensusAction`, only recommendations with confidence
strictly greater than 30 are counted toward the action tally (a
recommendation with confidence ≤ 30 leaves every count unchanged, one with
confidence > 30 adds one to its own action's count), and whenever the
plurality leader's qualifying-vote count is below 2, the chosen action is
forced to `hold`. -/
theorem C4_confidence_filter_and_quorum_floor :
    (∀ (r : Dev3.AIActionRecommendation) (recs : List Dev3.AIActionRecommendation)
       (a : Dev3.ActionType), r.confidence ≤ 30 →
         Dev3.actionCount (r :: recs) a = Dev3.actionCount recs a) ∧
    (∀ (r : Dev3.AIActionRecommendation) (recs : List Dev3.AIActionRecommendation),
       r.confidence > 30 →
         Dev3.actionCount (r :: recs) r.action = Dev3.actionCount recs r.action + 1) ∧
    (∀ recs : List Dev3.AIActionRecommendation,
       (Dev3.pluralityWinner recs).2 < 2 →
         (Dev3.determineConsensusAction recs).action = Dev3.ActionType.hold) := by
  refine ⟨fun r recs a h => Dev3.actionCount_cons_low r recs a h,
          fun r recs h => ?_, fun recs h => ?_⟩
  · rw [Dev3.actionCount_cons_qual r recs r.action h, if_pos rfl, Nat.add_comm]
  · simp only [Dev3.determineConsensusAction]
    simp [h]

/-- C4 witness: a confidence-20 buyback recommendation is not counted, a
confidence-80 one is, and a lone qualifying vote (plurality count 1 < 2)
forces the chosen action to `hold`. -/
theorem C4_confidence_filter_and_quorum_floor_witness :
    (Dev3.actionCount
        [{ model := Dev3.AIModel.grok, action := Dev3.ActionType.buyback,
           reasoning := "", confidence := 20, amount := none }]
        Dev3.ActionType.buyback = Dev3.actionCount [] Dev3.ActionType.buyback) ∧
    (Dev3.actionCount
        [{ model := Dev3.AIModel.grok, action := Dev3.ActionType.buyback,
           reasoning := "", confidence := 80, amount := none }]
        Dev3.ActionType.buyback = Dev3.actionCount [] Dev3.ActionType.buyback + 1) ∧
    (Dev3.determineConsensusAction
        [{ model := Dev3.AIModel.grok, action := Dev3.ActionType.buyback,
           reasoning := "", confidence := 80, amount := none }]).action =
      Dev3.ActionType.hold :=
  ⟨C4_confidence_filter_and_quorum_floor.1
      { model := Dev3.AIModel.grok, action := Dev3.ActionType.buyback,
        reasoning := "", confidence := 20, amount := none } [] Dev3.ActionType.buyback
      (by decide),
   C4_confidence_filter_and_quorum_floor.2.1
      { model := Dev3.AIModel.grok, action := Dev3.ActionType.buyback,
        reasoning := "", confidence := 80, amount := none } [] (by decide),
   C4_confidence_filter_and_quorum_floor.2.2
      [{ model := Dev3.AIModel.grok, action := Dev3.ActionType.buyback,
         reasoning := "", confidence := 80, amount := none }] (by decide)⟩

/-- C5: given three recommendations all with confidence > 30 and three
pairwise-distinct actions, the plurality leader computed by the tally scan
(the winner before the quorum floor is applied) is the first action of the
fixed enumeration order (buyback, burn, hold, sellPartial, claim_rewards)
that occurs among the three. -/
theorem C5_plurality_tie_break (m1 m2 m3 : Dev3.AIModel)
    (a1 a2 a3 : Dev3.ActionType) (s1 s2 s3 : String) (c1 c2 c3 : Int)
    (am1 am2 am3 : Option Int)
    (h1 : c1 > 30) (h2 : c2 > 30) (h3 : c3 > 30)
    (d12 : a1 ≠ a2) (d13 : a1 ≠ a3) (d23 : a2 ≠ a3) :
    some (Dev3.pluralityWinner
        [{ model := m1, action := a1, reasoning := s1, confidence := c1, amount := am1 },
         { model := m2, action := a2, reasoning := s2, confidence := c2, amount := am2 },
         { model := m3, action := a3, reasoning := s3, confidence := c3, amount := am3 }]).1 =
      Dev3.actionOrder.find? (fun a =>
        decide (a = a1) || decide (a = a2) || decide (a = a3)) := by
  have hc : Dev3.actionCount
      [{ model := m1, action := a1, reasoning := s1, confidence := c1, amount := am1 },
       { model := m2, action := a2, reasoning := s2, confidence := c2, amount := am2 },
       { model := m3, action := a3, reasoning := s3, confidence := c3, amount := am3 }] =
      fun a => (if a1 = a then 1 else 0) +
        ((if a2 = a then 1 else 0) + ((if a3 = a then 1 else 0) + 0)) := by
    funext a
    rw [Dev3.actionCount_cons_qual _ _ _ h1, Dev3.actionCount_cons_qual _ _ _ h2,
        Dev3.actionCount_cons_qual _ _ _ h3, Dev3.actionCount_nil]
  rw [Dev3.pluralityWinner, hc]
  exact Dev3.pluralityFold_three_distinct a1 a2 a3 d12 d13 d23

/-- C5 witness: recommendations for burn, claim_rewards, sellPartial (all
confidence 80) have plurality leader burn, the first of the enumeration
order present among them. -/
theorem C5_plurality_tie_break_witness :
    some (Dev3.pluralityWinner
        [{ model := Dev3.AIModel.grok, action := Dev3.ActionType.burn,
           reasoning := "", confidence := 80, amount := none },
         { model := Dev3.AIModel.chatgpt, action := Dev3.ActionType.claim_rewards,
           reasoning := "", confidence := 80, amount := none },
         { model := Dev3.AIModel.claude, action := Dev3.ActionType.sellPartial,
           reasoning := "", confidence := 80, amount := none }]).1 =
      Dev3.actionOrder.find? (fun a =>
        decide (a = Dev3.ActionType.burn) || decide (a = Dev3.ActionType.claim_rewards) ||
          decide (a = Dev3.ActionType.sellPartial)) :=
  C5_plurality_tie_break Dev3.AIModel.grok Dev3.AIModel.chatgpt Dev3.AIModel.claude
    Dev3.ActionType.burn Dev3.ActionType.claim_rewards Dev3.ActionType.sellPartial
    "" "" "" 80 80 80 none none none
    (by decide) (by decide) (by decide) (by decide) (by decide) (by decide)

/-- C6: in a successful cycle, the decision's executed flag is true exactly
when the chosen action is not `hold` and the display tally's approve-count
(voters matching the winning action with confidence > 50) is at least 2;
when the gate fails, no trading call is made and the result field keeps the
no-execution marker string. -/
theorem C6_execution_gate (r1 r2 r3 : Dev3.AIActionRecommendation)
    (execResult : Dev3.ActionType → String) (prev : List Dev3.AutonomousDecision) :
    let d := (Dev3.runAutonomousCycle (Except.ok (r1, r2, r3)) execResult prev).1
    let c := Dev3.determineConsensusAction [r1, r2, r3]
    (d.executed = true ↔
      (c.action ≠ Dev3.ActionType.hold ∧ c.votes.approve ≥ 2)) ∧
    (d.executed = false →
      d.result = some "Action not executed - HOLD consensus") := by
  intro d c
  constructor
  · show (decide (c.action ≠ Dev3.ActionType.hold) && decide (c.votes.approve ≥ 2)) = true ↔ _
    simp
  · intro hfalse
    show some (if (decide (c.action ≠ Dev3.ActionType.hold) && decide (c.votes.approve ≥ 2))
        then execResult c.action else "Action not executed - HOLD consensus") = _
    have : (decide (c.action ≠ Dev3.ActionType.hold) && decide (c.votes.approve ≥ 2)) = false :=
      hfalse
    rw [this]
    simp

/-- C7: when any voter invocation fails, the cycle produces the degraded
decision — action `hold`, executed false, votes {0,0,3}, result the error
text prefixed with `ERROR: `, reasoning the abort message — and pushes it
to the front of the capped history. -/
theorem C7_degraded_cycle (errorMsg : String)
    (execResult : Dev3.ActionType → String) (prev : List Dev3.AutonomousDecision) :
    let out := Dev3.runAutonomousCycle (Except.error errorMsg) execResult prev
    out.1.action = Dev3.ActionType.hold ∧
    out.1.executed = false ∧
    out.1.votes = { approve := 0, reject := 0, abstain := 3 } ∧
    out.1.result = some ("ERROR: " ++ errorMsg) ∧
    out.1.reasoning = "Cycle aborted: AI deliberation failed - " ++ errorMsg ∧
    out.2 = (out.1 :: prev).take 100 := by
  exact ⟨rfl, rfl, rfl, rfl, rfl, rfl⟩

namespace Dev3

/-- Unfolding of `addAIResponse` on a non-empty list: replace in place when
the head is from the same model, otherwise keep the head and continue. -/
theorem addAIResponse_cons (r : AIResponse) (rs : List AIResponse) (n : AIResponse) :
    addAIResponse (r :: rs) n =
      if r.model = n.model then n :: rs else r :: addAIResponse rs n := by
  by_cases h : r.model = n.model
  · simp [addAIResponse, List.findIdx?_cons, h]
  · rw [if_neg h]
    unfold addAIResponse
    rw [List.findIdx?_cons]
    simp only [h, decide_False, if_false, List.findIdx?_succ]
    cases hfi : List.findIdx? (fun x => decide (x.model = n.model)) rs with
    | none => simp
    | some i => simp

/-- The model column of `addAIResponse`: unchanged when the model was
already present, extended by the new model otherwise. -/
theorem addAIResponse_map_model (responses : List AIResponse) (n : AIResponse) :
    (addAIResponse responses n).map (fun r => r.model) =
      if responses.any (fun r => decide (r.model = n.model))
      then responses.map (fun r => r.model)
      else responses.map (fun r => r.model) ++ [n.model] := by
  induction responses with
  | nil => simp [addAIResponse]
  | cons r rs ih =>
    rw [addAIResponse_cons]
    by_cases h : r.model = n.model
    · simp [h]
    · by_cases hc : rs.any (fun r => decide (r.model = n.model)) <;>
        simp [h, hc, ih, List.any_cons]

end Dev3

/-- C8: starting from a response list whose voters are pairwise distinct,
`addAIResponse` keeps the voters pairwise distinct, keeps the list within 3
entries (one per fixed voter), and when the submitting voter had already
voted it replaces the earlier vote without growing the list. -/
theorem C8_vote_replacement (responses : List Dev3.AIResponse) (n : Dev3.AIResponse)
    (h : (responses.map (fun r => r.model)).Nodup) :
    ((Dev3.addAIResponse responses n).map (fun r => r.model)).Nodup ∧
    (Dev3.addAIResponse responses n).length ≤ 3 ∧
    ((∃ r ∈ responses, r.model = n.model) →
      (Dev3.addAIResponse responses n).length = responses.length) := by
  have hmap := Dev3.addAIResponse_map_model responses n
  have hnodup : ((Dev3.addAIResponse responses n).map (fun r => r.model)).Nodup := by
    rw [hmap]
    by_cases hc : responses.any (fun r => decide (r.model = n.model))
    · rw [if_pos hc]; exact h
    · rw [if_neg hc]
      simp only [List.any_eq_true, decide_eq_true_eq, not_exists, not_and] at hc
      rw [List.nodup_append]
      refine ⟨h, List.nodup_singleton _, ?_⟩
      intro x hx hx1
      simp only [List.mem_singleton] at hx1
      obtain ⟨r, hr, hrx⟩ := List.mem_map.mp hx
      exact hc r hr (hrx.trans hx1)
  have hcard : (Dev3.addAIResponse responses n).length ≤ 3 := by
    have hle := List.Nodup.length_le_card hnodup
    rw [List.length_map] at hle
    simpa using hle
  refine ⟨hnodup, hcard, fun ⟨r, hr, hrm⟩ => ?_⟩
  have hc : responses.any (fun r => decide (r.model = n.model)) = true :=
    List.any_eq_true.mpr ⟨r, hr, decide_eq_true hrm⟩
  have := congrArg List.length hmap
  rw [if_pos hc] at this
  simpa using this

/-- C8 witness: re-voting by the same voter (grok) on a one-vote list keeps
distinct voters, stays within 3 entries, and does not grow the list. -/
theorem C8_vote_replacement_witness :
    ((Dev3.addAIResponse
        [{ model := Dev3.AIModel.grok, vote := Dev3.VoteChoice.approve,
           reasoning := "", confidence := 80 }]
        { model := Dev3.AIModel.grok, vote := Dev3.VoteChoice.reject,
          reasoning := "", confidence := 70 }).map (fun r => r.model)).Nodup ∧
    (Dev3.addAIResponse
        [{ model := Dev3.AIModel.grok, vote := Dev3.VoteChoice.approve,
           reasoning := "", confidence := 80 }]
        { model := Dev3.AIModel.grok, vote := Dev3.VoteChoice.reject,
          reasoning := "", confidence := 70 }).length ≤ 3 ∧
    ((∃ r ∈ [({ model := Dev3.AIModel.grok, vote := Dev3.VoteChoice.approve,
                reasoning := "", confidence := 80 } : Dev3.AIResponse)],
        r.model = ({ model := Dev3.AIModel.grok, vote := Dev3.VoteChoice.reject,
                     reasoning := "", confidence := 70 } : Dev3.AIResponse).model) →
      (Dev3.addAIResponse
          [{ model := Dev3.AIModel.grok, vote := Dev3.VoteChoice.approve,
             reasoning := "", confidence := 80 }]
          { model := Dev3.AIModel.grok, vote := Dev3.VoteChoice.reject,
            reasoning := "", confidence := 70 }).length =
        [({ model := Dev3.AIModel.grok, vote := Dev3.VoteChoice.approve,
            reasoning := "", confidence := 80 } : Dev3.AIResponse)].length) :=
  C8_vote_replacement
    [{ model := Dev3.AIModel.grok, vote := Dev3.VoteChoice.approve,
       reasoning := "", confidence := 80 }]
    { model := Dev3.AIModel.grok, vote := Dev3.VoteChoice.reject,
      reasoning := "", confidence := 70 }
    (by simp)

/-- C9 counterexample: on the autonomous path, a parsed confidence of 150
is passed through by `getAIRecommendation` unchanged — it is neither
clamped into [0,100] nor replaced by the default 50. -/
theorem C9_counterexample :
    Dev3.getAIRecommendationConfidence (some 150) = 150 ∧
    ¬ Dev3.getAIRecommendationConfidence (some 150) ≤ 100 := by
  decide

/-- C9 (amended): on the manual deliberation path, `parseAIResponse`
clamps confidence into [0,100], with a missing/non-numeric or zero value
replaced by the default 50 before clamping; on the autonomous path,
`getAIRecommendation` replaces only a falsy confidence (missing field or 0)
by 50 and otherwise passes the value through unclamped, so out-of-range
values survive. -/
theorem C9_confidence_paths :
    (∀ p : Dev3.ParsedVotePayload,
      0 ≤ (Dev3.parseAIResponse p).2 ∧ (Dev3.parseAIResponse p).2 ≤ 100) ∧
    (∀ s : Option String, (Dev3.parseAIResponse { vote := s, confidence := none }).2 = 50) ∧
    (∀ (s : Option String) (v : Int), v ≠ 0 →
      (Dev3.parseAIResponse { vote := s, confidence := some v }).2 = min 100 (max 0 v)) ∧
    Dev3.getAIRecommendationConfidence none = 50 ∧
    Dev3.getAIRecommendationConfidence (some 0) = 50 ∧
    (∀ v : Int, v ≠ 0 → Dev3.getAIRecommendationConfidence (some v) = v) := by
  refine ⟨fun p => ⟨le_min (by norm_num) (le_max_left 0 _), min_le_left _ _⟩,
          fun s => rfl, fun s v hv => ?_, rfl, rfl, fun v hv => ?_⟩
  · show min 100 (max 0 (if v = 0 then 50 else v)) = min 100 (max 0 v)
    rw [if_neg hv]
  · show (if v = 0 then 50 else v) = v
    rw [if_neg hv]

/-- C9 amended-claim witness: a non-zero in-range confidence of 75 is kept
by both paths, and the bounds hold at a sample payload. -/
theorem C9_confidence_paths_witness :
    (0 ≤ (Dev3.parseAIResponse { vote := some "approve", confidence := some 150 }).2 ∧
      (Dev3.parseAIResponse { vote := some "approve", confidence := some 150 }).2 ≤ 100) ∧
    (Dev3.parseAIResponse { vote := some "approve", confidence := none }).2 = 50 ∧
    (Dev3.parseAIResponse { vote := some "approve", confidence := some 75 }).2 =
      min 100 (max 0 75) ∧
    Dev3.getAIRecommendationConfidence (some 75) = 75 :=
  ⟨C9_confidence_paths.1 { vote := some "approve", confidence := some 150 },
   C9_confidence_paths.2.1 (some "approve"),
   C9_confidence_paths.2.2.1 (some "approve") 75 (by decide),
   C9_confidence_paths.2.2.2.2.2 75 (by decide)⟩

namespace Dev3

/-- The three display-tally buckets of `determineConsensusAction` partition
any recommendation list: each entry is counted once. -/
theorem displayTally_partition (w : ActionType) :
    ∀ recs : List AIActionRecommendation,
      (recs.filter (fun r => decide (r.action = w) && decide (r.confidence > 50))).length +
      (recs.filter (fun r => decide (r.action ≠ w) && decide (r.confidence > 50))).length +
      (recs.filter (fun r => decide (r.confidence ≤ 50))).length = recs.length := by
  intro recs
  induction recs with
  | nil => rfl
  | cons r rest ih =>
    rcases lt_or_le 50 r.confidence with h50 | h50
    · by_cases hw : r.action = w <;>
        simp [List.filter_cons, hw, h50, not_le.mpr h50] at ih ⊢ <;> omega
    · simp [List.filter_cons, h50, not_lt.mpr h50] at ih ⊢
      omega

/-- The vote breakdown of `determineConsensusAction` sums to the number of
recommendations. -/
theorem determineConsensusAction_votes_sum (recs : List AIActionRecommendation) :
    (determineConsensusAction recs).votes.approve +
      (determineConsensusAction recs).votes.reject +
      (determineConsensusAction recs).votes.abstain = recs.length := by
  simp only [determineConsensusAction]
  exact displayTally_partition _ recs

end Dev3

/-- C10: every decision produced by `runAutonomousCycle` — the success
branch via the display tally and the degraded abort branch via the fixed
{0,0,3} tally — has approve, reject, and abstain counts summing to exactly
3. -/
theorem C10_votes_sum_three
    (recsOrErr : Except String (Dev3.AIActionRecommendation ×
      Dev3.AIActionRecommendation × Dev3.AIActionRecommendation))
    (execResult : Dev3.ActionType → String) (prev : List Dev3.AutonomousDecision) :
    (Dev3.runAutonomousCycle recsOrErr execResult prev).1.votes.approve +
      (Dev3.runAutonomousCycle recsOrErr execResult prev).1.votes.reject +
      (Dev3.runAutonomousCycle recsOrErr execResult prev).1.votes.abstain = 3 := by
  match recsOrErr with
  | Except.error msg => rfl
  | Except.ok (r1, r2, r3) =>
    exact Dev3.determineConsensusAction_votes_sum [r1, r2, r3]

/-- C6 witness: three unanimous buyback recommendations at confidence 80
pass the execution gate, so the recorded decision has executed = true. -/
theorem C6_execution_gate_witness :
    let r : Dev3.AIActionRecommendation :=
      { model := Dev3.AIModel.grok, action := Dev3.ActionType.buyback,
        reasoning := "", confidence := 80, amount := none }
    let d := (Dev3.runAutonomousCycle (Except.ok (r, r, r)) (fun _ => "tx ok") []).1
    let c := Dev3.determineConsensusAction [r, r, r]
    (d.executed = true ↔
      (c.action ≠ Dev3.ActionType.hold ∧ c.votes.approve ≥ 2)) ∧
    (d.executed = false →
      d.result = some "Action not executed - HOLD consensus") :=
  C6_execution_gate
    { model := Dev3.AIModel.grok, action := Dev3.ActionType.buyback,
      reasoning := "", confidence := 80, amount := none }
    { model := Dev3.AIModel.grok, action := Dev3.ActionType.buyback,
      reasoning := "", confidence := 80, amount := none }
    { model := Dev3.AIModel.grok, action := Dev3.ActionType.buyback,
      reasoning := "", confidence := 80, amount := none }
    (fun _ => "tx ok") []
